import Mathlib

/-!
Shallow embedding of the Raspberry Pi camera capture backend
(src/platform/linux/picamera_capture.cpp) and proofs about its
specification claims.  External library calls (FFmpeg / libswscale /
the filesystem) are modelled as oracles supplied in environment
records; the control flow of each repository function is translated
directly from the source.
-/

namespace Picamera

/-- Capture loop result codes used by the backend (platf::capture_e values
that this translation unit produces). -/
inductive capture_e
| ok
| reinit
| timeout
| error
| interrupted
deriving DecidableEq, Repr

/-! ## Frame pacing (picamera_display_t::init line 210 and ::capture lines 247-250)

Times and durations are integer nanosecond counts.  The C++ expression
std::chrono::nanoseconds{1s} / std::max(1, cfg.framerate) is integer
division of 10^9 by max(1, framerate); both operands are positive so
C++ truncating division and Lean integer division agree. -/

/-- Inter-frame delay in nanoseconds computed by picamera_display_t::init:
delay = 1s / max(1, cfg.framerate). -/
def delayOf (framerate : Int) : Int :=
  1000000000 / (max 1 framerate)

/-- One pacing update from the capture loop body: advance the next
scheduled tick by the fixed delay and, if that still lies in the past
relative to now, resynchronize to now + delay (lines 247-250). -/
def pacerAdvance (next now d : Int) : Int :=
  let n := next + d
  if n < now then now + d else n

/-! ## Device session (format_context_t, lines 52-124)

The session state holds whether the AVFormatContext handle is open and
the negotiated stream index (-1 meaning none).  The environment records
the outcome of each external FFmpeg call: whether the v4l2 input format
is found, whether avformat_open_input succeeds (on failure FFmpeg frees
the context and nulls the pointer), whether avformat_find_stream_info
succeeds, and the value returned by av_find_best_stream (a stream index
when nonnegative, an error code when negative). -/

structure FormatState where
  ctxOpen : Bool
  streamIndex : Int
deriving DecidableEq, Repr

/-- The member-initialized state of format_context_t: null context,
stream_index -1. -/
def initialFormat : FormatState :=
  ⟨false, -1⟩

structure FormatEnv where
  v4l2Found : Bool
  openInputOk : Bool
  findStreamInfoOk : Bool
  bestStream : Int
deriving DecidableEq, Repr

/-- format_context_t::open (lines 58-96), returning the Bool result and
the session state after the call. -/
def formatOpen (env : FormatEnv) (st : FormatState) : Bool × FormatState :=
  if !env.v4l2Found then
    (false, st)
  else if !env.openInputOk then
    -- avformat_open_input frees the context and nulls the pointer on failure
    (false, { st with ctxOpen := false })
  else
    let st1 := { st with ctxOpen := true }
    if !env.findStreamInfoOk then
      (false, st1)
    else
      let st2 := { st1 with streamIndex := env.bestStream }
      if env.bestStream < 0 then
        (false, st2)
      else
        (true, st2)

/-- format_context_t::close (lines 98-104): when the context is open,
close it and reset the stream index to -1; otherwise a no-op. -/
def formatClose (st : FormatState) : FormatState :=
  if st.ctxOpen then ⟨false, -1⟩ else st

/-- Concrete environment in which avformat_find_stream_info fails after
the device was opened. -/
def envInfoFail : FormatEnv :=
  ⟨true, true, false, 0⟩

/-! ## Frame buffer and read_frame (picamera_display_t::read_frame, lines 303-375)

The img_t buffer is modelled with an allocation identity in place of the
raw pointer (none = null data pointer; reallocation produces a fresh
identity).  The environment records the outcome of each external call:
av_read_frame (EAGAIN, hard error, or a packet with a stream index),
avcodec_send_packet, av_frame_alloc, avcodec_receive_frame (EAGAIN,
error, or a decoded frame with its geometry), scaler configuration and
sws_scale success, plus the steady-clock reading taken for the frame
timestamp.  The display's own width/height members, updated from the
decoded frame, are threaded through as the disp pair. -/

structure Img where
  data : Option Nat
  width : Int
  height : Int
  rowPitch : Int
  pixelPitch : Int
  frameTimestamp : Int
deriving DecidableEq, Repr

/-- The buffer (re)allocation step of read_frame (lines 354-363) followed
by the unconditional field updates (lines 361-363): reallocate exactly
when the data pointer is null, the row pitch differs from frame_width*4,
or the stored height differs from frame_height; then set width, height
and pixel_pitch.  Returns the updated buffer and whether the backing
allocation was replaced. -/
def fillBuffer (img : Img) (fw fh : Int) (fresh : Nat) : Img × Bool :=
  let step :=
    if img.data = none ∨ img.rowPitch ≠ fw * 4 ∨ img.height ≠ fh then
      ({ img with rowPitch := fw * 4, height := fh, data := some fresh }, true)
    else
      (img, false)
  ({ step.1 with width := fw, height := fh, pixelPitch := 4 }, step.2)

inductive ReadRes
| again
| err
| pkt (streamIndex : Int)
deriving DecidableEq, Repr

inductive RecvRes
| again
| err
| frame (w h : Int)
deriving DecidableEq, Repr

structure ReadEnv where
  read : ReadRes
  fmtIndex : Int
  sendOk : Bool
  frameAllocOk : Bool
  recv : RecvRes
  scalerOk : Bool
  scaleOk : Bool
  freshId : Nat
  now : Int
deriving DecidableEq, Repr

structure ReadOut where
  status : capture_e
  img : Img
  realloc : Bool
  sentToDecoder : Bool
  disp : Int × Int
deriving DecidableEq, Repr

/-- picamera_display_t::read_frame (lines 303-375): read a packet,
discard it as a timeout when its stream index is not the negotiated one,
feed it to the decoder, drain at most one frame, update the display
geometry from the decoded frame, configure the scaler, (re)allocate the
destination buffer as needed, convert, and stamp the capture time. -/
def readFrame (env : ReadEnv) (disp : Int × Int) (img : Img) : ReadOut :=
  match env.read with
  | ReadRes.again => ⟨capture_e.timeout, img, false, false, disp⟩
  | ReadRes.err => ⟨capture_e.error, img, false, false, disp⟩
  | ReadRes.pkt idx =>
    if idx ≠ env.fmtIndex then
      ⟨capture_e.timeout, img, false, false, disp⟩
    else if !env.sendOk then
      ⟨capture_e.error, img, false, true, disp⟩
    else if !env.frameAllocOk then
      ⟨capture_e.error, img, false, true, disp⟩
    else
      match env.recv with
      | RecvRes.again => ⟨capture_e.timeout, img, false, true, disp⟩
      | RecvRes.err => ⟨capture_e.error, img, false, true, disp⟩
      | RecvRes.frame w h =>
        if !env.scalerOk then
          ⟨capture_e.error, img, false, true, (w, h)⟩
        else
          let filled := fillBuffer img w h env.freshId
          if !env.scaleOk then
            ⟨capture_e.error, filled.1, filled.2, true, (w, h)⟩
          else
            ⟨capture_e.ok, { filled.1 with frameTimestamp := env.now },
              filled.2, true, (w, h)⟩

/-! ## Conversion session (scale_context_t, lines 172-195)

sws_getCachedContext is modelled from its documented semantics: when the
held converter's key parameters match the request it is returned
unchanged, otherwise the old converter is released and a new one is
allocated (none models allocation failure).  The destination pixel
format (AV_PIX_FMT_BGRA) and the flags (SWS_BILINEAR) are fixed
constants at the only call site, so they are not part of the key. -/

structure SwsParams where
  srcW : Int
  srcH : Int
  srcFmt : Int
  dstW : Int
  dstH : Int
deriving DecidableEq, Repr

structure SwsCtx where
  id : Nat
  params : SwsParams
deriving DecidableEq, Repr

def swsGetCachedContext (old : Option SwsCtx) (p : SwsParams)
    (alloc : Option Nat) : Option SwsCtx :=
  match old with
  | some c => if c.params = p then some c else alloc.map fun i => ⟨i, p⟩
  | none => alloc.map fun i => ⟨i, p⟩

/-- scale_context_t::configure (lines 180-187): replace the held context
by the cached-context result and fail when it is null. -/
def scaleConfigure (st : Option SwsCtx) (p : SwsParams)
    (alloc : Option Nat) : Option SwsCtx × Bool :=
  let c := swsGetCachedContext st p alloc
  (c, c.isSome)

/-! ## Capture loop (picamera_display_t::capture, lines 234-270)

The pacing arithmetic of each iteration is pacerAdvance above; the body
after pacing (lines 252-268) is iterStep, with the consumer callbacks
and the read_frame outcome supplied per iteration as oracles.  Buffers
are identified by the id the pull callback hands out; a push event
records which buffer was pushed and its is_new flag. -/

structure IterEnv where
  pullOk : Bool
  pullBuf : Nat
  fill : capture_e
  pushAccept : Bool
deriving DecidableEq, Repr

structure PushEvent where
  buf : Nat
  isNew : Bool
deriving DecidableEq, Repr

/-- One iteration of the capture loop body after the pacing step: pull a
free image (refusal exits with interrupted), fill it via read_frame, and
push it tagged new on ok or repeat on timeout (push refusal exits with
ok); any other fill status exits the loop with that status.  none means
the loop keeps running. -/
def iterStep (e : IterEnv) : Option capture_e × List PushEvent :=
  if !e.pullOk then
    (some capture_e.interrupted, [])
  else if e.fill = capture_e.ok then
    if e.pushAccept then (none, [⟨e.pullBuf, true⟩])
    else (some capture_e.ok, [⟨e.pullBuf, true⟩])
  else if e.fill = capture_e.timeout then
    if e.pushAccept then (none, [⟨e.pullBuf, false⟩])
    else (some capture_e.ok, [⟨e.pullBuf, false⟩])
  else
    (some e.fill, [])

/-- The capture loop run over a finite trace of iteration environments:
returns the exit code reached within the trace (none when the loop is
still running after consuming it) and the pushed events in order. -/
def captureLoop : List IterEnv → Option capture_e × List PushEvent
  | [] => (none, [])
  | e :: rest =>
    let s := iterStep e
    match s.1 with
    | some r => (some r, s.2)
    | none =>
      let tail := captureLoop rest
      (tail.1, s.2 ++ tail.2)

/-- An iteration on which the loop keeps running: pull succeeds, the
fill is ok or timeout, and the consumer accepts the push. -/
def runsOn (e : IterEnv) : Prop :=
  e.pullOk = true ∧ (e.fill = capture_e.ok ∨ e.fill = capture_e.timeout) ∧
    e.pushAccept = true

instance (e : IterEnv) : Decidable (runsOn e) := by
  unfold runsOn
  infer_instance

/-- The push event produced by a running iteration: the pulled buffer,
flagged is_new exactly when the fill returned ok. -/
def pushOf (e : IterEnv) : PushEvent :=
  match e.fill with
  | capture_e.ok => ⟨e.pullBuf, true⟩
  | _ => ⟨e.pullBuf, false⟩

/-! ## Capture facade enumeration (display_names, lines 389-401) -/

def DEFAULT_DEVICE : String := "/dev/video0"

def devPath (i : Nat) : String := "/dev/video" ++ toString i

/-- display_names: collect the reachable paths /dev/video0 .. /dev/video7
(the filesystem existence check is the fsExists oracle) and fall back to
the single default device when none is reachable. -/
def displayNames (fsExists : Nat → Bool) : List String :=
  let devices := (List.range 8).filterMap fun i =>
    if fsExists i then some (devPath i) else none
  if devices.isEmpty then [DEFAULT_DEVICE] else devices

/-! ## Theorems for claims C1-C3 -/

/-- C1 counterexample: with framerate 0 the inter-frame delay computed by
init is 1 second, not 1/30 second as the claim states. -/
theorem delayOf_zero_not_thirtieth :
    ¬ delayOf 0 = 1000000000 / 30 := by
  decide

/-- C1 (amended): for every configuration with framerate at most 0, the
inter-frame delay equals 1 second (the pacer behaves as if the frame
rate were 1, because init divides by max(1, framerate)). -/
theorem delayOf_nonpos (fr : Int) (h : fr ≤ 0) :
    delayOf fr = 1000000000 := by
  unfold delayOf
  rw [max_eq_left (h.trans (by norm_num))]
  norm_num

/-- Witness for delayOf_nonpos at framerate 0. -/
theorem delayOf_nonpos_witness :
    (0 : Int) ≤ 0 ∧ delayOf 0 = 1000000000 :=
  ⟨le_refl 0, delayOf_nonpos 0 (le_refl 0)⟩

/-- C2 counterexample: when stream-info probing fails (third step), open
returns false but the device handle is left open, so the session is not
closed as the claim states. -/
theorem formatOpen_infoFail_leaves_open :
    (formatOpen envInfoFail initialFormat).1 = false ∧
      (formatOpen envInfoFail initialFormat).2.ctxOpen = true := by
  decide

/-- C2 (amended): whenever open fails, it returns false and no valid
stream index is held (the index stays negative), and calling close
afterwards restores the fully closed state; when the failure is at the
input-format-lookup or device-open step the state is already the closed
one, but after a stream-info or video-stream-search failure the handle
remains open until close runs.  The invariant that a nonnegative index
implies an open handle holds for every outcome. -/
theorem formatOpen_failure_state (env : FormatEnv) :
    (0 ≤ (formatOpen env initialFormat).2.streamIndex →
      (formatOpen env initialFormat).2.ctxOpen = true) ∧
    ((formatOpen env initialFormat).1 = false →
      (formatOpen env initialFormat).2.streamIndex < 0 ∧
      formatClose (formatOpen env initialFormat).2 = initialFormat ∧
      ((env.v4l2Found = false ∨ env.openInputOk = false) →
        (formatOpen env initialFormat).2 = initialFormat)) := by
  obtain ⟨v, o, i, b⟩ := env
  by_cases hb : b < 0 <;>
    cases v <;> cases o <;> cases i <;>
    simp [formatOpen, formatClose, initialFormat, hb]

/-- Witness for formatOpen_failure_state at the stream-info-failure
environment. -/
theorem formatOpen_failure_state_witness :
    (formatOpen envInfoFail initialFormat).2.streamIndex < 0 :=
  (((formatOpen_failure_state envInfoFail).2) (by decide)).1

/-- C3: in each loop iteration the next tick is advanced by the fixed
delay and, exactly when the advanced tick is still before now, it is
reset to now + delay; consequently the updated scheduled tick is never
in the past (no backlog of catch-up ticks). -/
theorem pacerAdvance_resync (next now d : Int) (hd : 0 ≤ d) :
    (next + d < now → pacerAdvance next now d = now + d) ∧
    (¬ next + d < now → pacerAdvance next now d = next + d) ∧
    now ≤ pacerAdvance next now d := by
  unfold pacerAdvance
  by_cases h : next + d < now <;> simp [h] <;> omega

/-- Witness for pacerAdvance_resync with next = 0, now = 10, d = 2. -/
theorem pacerAdvance_resync_witness :
    (0 : Int) ≤ 2 ∧ (10 : Int) ≤ pacerAdvance 0 10 2 :=
  ⟨by decide, (pacerAdvance_resync 0 10 2 (by decide)).2.2⟩

/-! ## Helper lemmas for read_frame and the loop -/

/-- When read_frame succeeds, its result is exactly the ok branch:
the buffer produced by fillBuffer stamped with the clock reading, the
realloc flag of fillBuffer, the packet fed to the decoder, and the
display geometry updated to the frame geometry. -/
theorem readFrame_ok_eq (env : ReadEnv) (disp : Int × Int) (img : Img)
    (w h : Int) (hrecv : env.recv = RecvRes.frame w h)
    (hok : (readFrame env disp img).status = capture_e.ok) :
    readFrame env disp img =
      ⟨capture_e.ok,
        { (fillBuffer img w h env.freshId).1 with frameTimestamp := env.now },
        (fillBuffer img w h env.freshId).2, true, (w, h)⟩ := by
  obtain ⟨rd, fi, so, fo, rc, sk, sc, fid, nw⟩ := env
  cases hrecv
  cases rd with
  | again => simp [readFrame] at hok
  | err => simp [readFrame] at hok
  | pkt idx =>
    by_cases h1 : idx ≠ fi
    · simp [readFrame, h1] at hok
    · cases so <;> cases fo <;> cases sk <;> cases sc <;>
        simp_all [readFrame]

/-- Field contract of the buffer-fill step: the produced buffer carries
the frame geometry with pixel pitch 4 and row pitch frame_width*4, has a
live allocation, the realloc flag is set exactly for the source's
condition (null data, row-pitch mismatch, or height mismatch), and when
it is not set the allocation is the original one. -/
theorem fillBuffer_fields (img : Img) (fw fh : Int) (fresh : Nat) :
    (fillBuffer img fw fh fresh).1.width = fw ∧
    (fillBuffer img fw fh fresh).1.height = fh ∧
    (fillBuffer img fw fh fresh).1.pixelPitch = 4 ∧
    (fillBuffer img fw fh fresh).1.rowPitch = fw * 4 ∧
    (fillBuffer img fw fh fresh).1.data ≠ none ∧
    ((fillBuffer img fw fh fresh).2 = true ↔
      (img.data = none ∨ img.rowPitch ≠ fw * 4 ∨ img.height ≠ fh)) ∧
    ((fillBuffer img fw fh fresh).2 = false →
      (fillBuffer img fw fh fresh).1.data = img.data) := by
  unfold fillBuffer
  by_cases hc : img.data = none ∨ img.rowPitch ≠ fw * 4 ∨ img.height ≠ fh
  · simp [hc]
  · push_neg at hc
    obtain ⟨h1, h2, h3⟩ := hc
    simp [h1, h2, h3]

/-- A buffer whose allocation is live and whose row pitch and height
already match the requested geometry is not reallocated. -/
theorem fillBuffer_no_realloc (img : Img) (fw fh : Int) (fresh : Nat)
    (hd : img.data ≠ none) (hr : img.rowPitch = fw * 4)
    (hh : img.height = fh) :
    (fillBuffer img fw fh fresh).2 = false ∧
    (fillBuffer img fw fh fresh).1.data = img.data := by
  have hc : ¬ (img.data = none ∨ img.rowPitch ≠ fw * 4 ∨ img.height ≠ fh) := by
    simp [hd, hr, hh]
  unfold fillBuffer
  simp [hc]

/-- A converter returned by a successful configure call carries the
requested parameters as its key. -/
theorem swsGetCachedContext_params (st : Option SwsCtx) (p : SwsParams)
    (al : Option Nat) (c : SwsCtx)
    (h : swsGetCachedContext st p al = some c) : c.params = p := by
  cases st with
  | none =>
    cases al with
    | none => simp [swsGetCachedContext] at h
    | some i =>
      simp [swsGetCachedContext] at h
      rw [← h]
  | some c0 =>
    by_cases hp : c0.params = p
    · simp [swsGetCachedContext, hp] at h
      rw [← h, hp]
    · cases al with
      | none => simp [swsGetCachedContext, hp] at h
      | some i =>
        simp [swsGetCachedContext, hp] at h
        rw [← h]

/-- Unfolding the capture loop across an iteration on which it keeps
running: the exit code is the one reached in the remaining trace and the
iteration's push event is prepended. -/
theorem captureLoop_cons_running (x : IterEnv) (r : List IterEnv)
    (hx : runsOn x) :
    captureLoop (x :: r) =
      ((captureLoop r).1, pushOf x :: (captureLoop r).2) := by
  obtain ⟨hp, hf, ha⟩ := hx
  rcases hf with hf | hf <;>
    simp [captureLoop, iterStep, hp, hf, ha, pushOf]

/-! ## Theorems for claims C4-C10 -/

/-- Concrete buffer whose width field does not match its row pitch:
live allocation, width 0, height 720, row pitch 5120 = 1280*4. -/
def cImgC4 : Img := ⟨some 7, 0, 720, 5120, 4, 0⟩

/-- Concrete read_frame environment in which every step succeeds and the
decoder yields a 1280x720 frame. -/
def cEnvC4 : ReadEnv :=
  ⟨ReadRes.pkt 0, 0, true, true, RecvRes.frame 1280 720, true, true, 9, 5⟩

/-- C4 counterexample: a successful fill of a buffer whose stored
dimensions (width 0, height 720) differ from the decoded frame's
dimensions (1280x720) does not replace the backing allocation, because
the source compares row pitch and height, not the stored width; so
reallocation does not happen exactly when the stored dimensions differ. -/
theorem readFrame_realloc_not_dims :
    (readFrame cEnvC4 (1280, 720) cImgC4).status = capture_e.ok ∧
    ¬ ((readFrame cEnvC4 (1280, 720) cImgC4).realloc = true ↔
        (cImgC4.width ≠ 1280 ∨ cImgC4.height ≠ 720)) := by
  decide

/-- C4 (amended): for every successful fill the produced buffer satisfies
row_pitch = width*4 and pixel_pitch = 4 and carries the decoded frame's
geometry; the backing allocation is replaced exactly when the buffer's
data pointer is null, its row pitch differs from frame_width*4, or its
stored height differs from frame_height (not when the stored width
field differs); when it is not replaced the allocation is the original
one; and any subsequent successful fill at the same frame geometry
reuses the allocation of the first. -/
theorem readFrame_ok_buffer (env : ReadEnv) (disp : Int × Int) (img : Img)
    (w h : Int) (hrecv : env.recv = RecvRes.frame w h)
    (hok : (readFrame env disp img).status = capture_e.ok) :
    (readFrame env disp img).img.rowPitch =
      (readFrame env disp img).img.width * 4 ∧
    (readFrame env disp img).img.pixelPitch = 4 ∧
    (readFrame env disp img).img.width = w ∧
    (readFrame env disp img).img.height = h ∧
    ((readFrame env disp img).realloc = true ↔
      (img.data = none ∨ img.rowPitch ≠ w * 4 ∨ img.height ≠ h)) ∧
    ((readFrame env disp img).realloc = false →
      (readFrame env disp img).img.data = img.data) ∧
    (∀ env2 disp2, env2.recv = RecvRes.frame w h →
      (readFrame env2 disp2 (readFrame env disp img).img).status =
        capture_e.ok →
      (readFrame env2 disp2 (readFrame env disp img).img).realloc = false ∧
      (readFrame env2 disp2 (readFrame env disp img).img).img.data =
        (readFrame env disp img).img.data) := by
  have heq := readFrame_ok_eq env disp img w h hrecv hok
  obtain ⟨hw, hh, hp, hr, hd, hiff, hpres⟩ :=
    fillBuffer_fields img w h env.freshId
  rw [heq]
  refine ⟨by simp [hr, hw], by simp [hp], by simp [hw], by simp [hh],
    by simpa using hiff, by simpa using hpres, ?_⟩
  intro env2 disp2 hrecv2 hok2
  have heq2 := readFrame_ok_eq env2 disp2 _ w h hrecv2 hok2
  rw [heq2]
  have hnr := fillBuffer_no_realloc
    { (fillBuffer img w h env.freshId).1 with frameTimestamp := env.now }
    w h env2.freshId (by simpa using hd) (by simpa using hr)
    (by simpa using hh)
  exact ⟨by simpa using hnr.1, by simpa using hnr.2⟩

/-- Fresh empty buffer (null data pointer, zero geometry). -/
def cImgEmpty : Img := ⟨none, 0, 0, 0, 0, 0⟩

/-- Witness for readFrame_ok_buffer: a successful fill of an empty buffer
at 1280x720 yields row_pitch = width*4. -/
theorem readFrame_ok_buffer_witness :
    cEnvC4.recv = RecvRes.frame 1280 720 ∧
    (readFrame cEnvC4 (0, 0) cImgEmpty).status = capture_e.ok ∧
    (readFrame cEnvC4 (0, 0) cImgEmpty).img.rowPitch =
      (readFrame cEnvC4 (0, 0) cImgEmpty).img.width * 4 :=
  ⟨rfl, by decide,
    (readFrame_ok_buffer cEnvC4 (0, 0) cImgEmpty 1280 720 rfl (by decide)).1⟩

/-- C10: a packet read from the device whose stream index differs from
the negotiated video stream index is discarded: read_frame returns a
timeout with the buffer untouched and without feeding the decoder. -/
theorem readFrame_wrong_stream (env : ReadEnv) (disp : Int × Int)
    (img : Img) (idx : Int) (hr : env.read = ReadRes.pkt idx)
    (hne : idx ≠ env.fmtIndex) :
    readFrame env disp img =
      ⟨capture_e.timeout, img, false, false, disp⟩ := by
  obtain ⟨rd, fi, so, fo, rc, sk, sc, fid, nw⟩ := env
  cases hr
  simp [readFrame, hne]

/-- Concrete environment delivering a packet on stream 3 while the
negotiated video stream is 0. -/
def cEnvC10 : ReadEnv :=
  ⟨ReadRes.pkt 3, 0, true, true, RecvRes.frame 1280 720, true, true, 9, 5⟩

/-- Witness for readFrame_wrong_stream at a concrete mismatched packet. -/
theorem readFrame_wrong_stream_witness :
    readFrame cEnvC10 (1280, 720) cImgEmpty =
      ⟨capture_e.timeout, cImgEmpty, false, false, (1280, 720)⟩ :=
  readFrame_wrong_stream cEnvC10 (1280, 720) cImgEmpty 3 rfl (by decide)

/-- C8: the conversion session's configure step is idempotent: after a
successful configure with given parameters, configuring again with the
same parameters leaves the held converter unchanged (same identity) and
succeeds, using no new allocation. -/
theorem scaleConfigure_idempotent (st : Option SwsCtx) (p : SwsParams)
    (al al2 : Option Nat) (c : SwsCtx)
    (h : scaleConfigure st p al = (some c, true)) :
    scaleConfigure (some c) p al2 = (some c, true) := by
  have h1 : swsGetCachedContext st p al = some c :=
    congrArg Prod.fst h
  have hc : c.params = p := swsGetCachedContext_params st p al c h1
  simp [scaleConfigure, swsGetCachedContext, hc]

/-- Concrete conversion parameters. -/
def pScale : SwsParams := ⟨640, 480, 0, 640, 480⟩

/-- Witness for scaleConfigure_idempotent: after building a converter for
pScale, a second configure with pScale (and no allocator) returns the
same converter. -/
theorem scaleConfigure_idempotent_witness :
    scaleConfigure (some ⟨3, pScale⟩) pScale none = (some ⟨3, pScale⟩, true) :=
  scaleConfigure_idempotent none pScale (some 3) none ⟨3, pScale⟩ (by decide)

/-- C5: over any trace of iterations in which the pull succeeds, the fill
reports timeout, and the consumer accepts, the capture loop never
terminates and pushes, on every tick, exactly the buffer pulled in that
tick flagged is_new = false. -/
theorem captureLoop_all_timeout (t : List IterEnv)
    (h : ∀ e ∈ t, e.pullOk = true ∧ e.fill = capture_e.timeout ∧
      e.pushAccept = true) :
    captureLoop t = (none, t.map fun e => PushEvent.mk e.pullBuf false) := by
  induction t with
  | nil => simp [captureLoop]
  | cons x r ih =>
    obtain ⟨hp, hf, ha⟩ := h x (List.mem_cons_self x r)
    rw [captureLoop_cons_running x r ⟨hp, Or.inr hf, ha⟩,
      ih fun e he => h e (List.mem_cons_of_mem x he)]
    simp [pushOf, hf]

/-- Three consecutive timeout ticks on one and the same buffer. -/
def tTimeout : List IterEnv :=
  [⟨true, 1, capture_e.timeout, true⟩, ⟨true, 1, capture_e.timeout, true⟩,
    ⟨true, 1, capture_e.timeout, true⟩]

/-- Witness for captureLoop_all_timeout on three consecutive timeouts. -/
theorem captureLoop_all_timeout_witness :
    captureLoop tTimeout =
      (none, tTimeout.map fun e => PushEvent.mk e.pullBuf false) :=
  captureLoop_all_timeout tTimeout (by decide)

/-- C6: when the consumer's push callback declines a frame pushed after
an ok or a timeout fill, the loop terminates and capture returns the ok
result, regardless of any earlier running iterations. -/
theorem captureLoop_push_decline_ok (t : List IterEnv) (e : IterEnv)
    (ht : ∀ x ∈ t, runsOn x) (hp : e.pullOk = true)
    (hf : e.fill = capture_e.ok ∨ e.fill = capture_e.timeout)
    (ha : e.pushAccept = false) :
    (captureLoop (t ++ [e])).1 = some capture_e.ok := by
  induction t with
  | nil =>
    rcases hf with hf | hf <;> simp [captureLoop, iterStep, hp, hf, ha]
  | cons x r ih =>
    rw [List.cons_append,
      captureLoop_cons_running x (r ++ [e]) (ht x (List.mem_cons_self x r))]
    exact ih fun y hy => ht y (List.mem_cons_of_mem x hy)

/-- One running iteration pushing buffer 1 as new content. -/
def tRun : List IterEnv := [⟨true, 1, capture_e.ok, true⟩]

/-- Iteration whose push is declined by the consumer. -/
def eDecline : IterEnv := ⟨true, 2, capture_e.ok, false⟩

/-- Witness for captureLoop_push_decline_ok: the consumer declines the
second frame and the loop exits with ok. -/
theorem captureLoop_push_decline_ok_witness :
    (captureLoop (tRun ++ [eDecline])).1 = some capture_e.ok :=
  captureLoop_push_decline_ok tRun eDecline (by decide) (by decide)
    (Or.inl (by decide)) (by decide)

/-- C7: when the consumer's pull callback refuses to supply a buffer, the
loop terminates at that iteration with the interrupted result, pushing
nothing in that iteration and never reaching its fill or push step nor
any later iteration. -/
theorem captureLoop_pull_refuse_interrupted (t : List IterEnv)
    (e : IterEnv) (rest : List IterEnv) (ht : ∀ x ∈ t, runsOn x)
    (hp : e.pullOk = false) :
    captureLoop (t ++ e :: rest) =
      (some capture_e.interrupted, t.map pushOf) := by
  induction t with
  | nil => simp [captureLoop, iterStep, hp]
  | cons x r ih =>
    rw [List.cons_append,
      captureLoop_cons_running x (r ++ e :: rest) (ht x (List.mem_cons_self x r)),
      ih fun y hy => ht y (List.mem_cons_of_mem x hy)]
    simp

/-- Iteration whose pull is refused. -/
def ePullFail : IterEnv := ⟨false, 0, capture_e.ok, true⟩

/-- Witness for captureLoop_pull_refuse_interrupted: a refused pull after
one running iteration exits with interrupted, ignoring the rest of the
trace. -/
theorem captureLoop_pull_refuse_witness :
    captureLoop (tRun ++ ePullFail :: tTimeout) =
      (some capture_e.interrupted, tRun.map pushOf) :=
  captureLoop_pull_refuse_interrupted tRun ePullFail tTimeout
    (by decide) (by decide)

/-- C9: for every filesystem state, display_names returns a non-empty
list containing every reachable device path with index below 8, and when
none is reachable it is exactly the single default fallback path. -/
theorem displayNames_spec (fs : Nat → Bool) :
    displayNames fs ≠ [] ∧
    (∀ i, i < 8 → fs i = true → devPath i ∈ displayNames fs) ∧
    ((∀ i, i < 8 → fs i = false) → displayNames fs = [DEFAULT_DEVICE]) := by
  have hmem : ∀ i, i < 8 → fs i = true →
      devPath i ∈ (List.range 8).filterMap fun j =>
        if fs j then some (devPath j) else none := by
    intro i hi hfs
    exact List.mem_filterMap.mpr ⟨i, List.mem_range.mpr hi, by simp [hfs]⟩
  refine ⟨?_, ?_, ?_⟩
  · unfold displayNames
    by_cases hE : ((List.range 8).filterMap fun j =>
        if fs j then some (devPath j) else none).isEmpty
    · simp [hE]
    · simp only [hE, if_neg, Bool.false_eq_true, if_false]
      exact List.isEmpty_eq_false.mp (Bool.not_eq_true _ ▸ hE)
  · intro i hi hfs
    have hm := hmem i hi hfs
    have hne := List.ne_nil_of_mem hm
    unfold displayNames
    rw [if_neg (by simpa [List.isEmpty_eq_false] using hne)]
    exact hm
  · intro hall
    have hnil : ((List.range 8).filterMap fun j =>
        if fs j then some (devPath j) else none) = [] := by
      rw [List.filterMap_eq_nil_iff]
      intro a ha
      simp [hall a (List.mem_range.mp ha)]
    unfold displayNames
    simp [hnil]

/-- Witness for displayNames_spec: with only /dev/video2 reachable the
enumeration contains it, and with nothing reachable the enumeration is
exactly the default device. -/
theorem displayNames_spec_witness :
    devPath 2 ∈ displayNames (fun i => i == 2) ∧
    displayNames (fun _ => false) = [DEFAULT_DEVICE] :=
  ⟨(displayNames_spec fun i => i == 2).2.1 2 (by decide) (by decide),
    (displayNames_spec fun _ => false).2.2 fun _ _ => rfl⟩

end Picamera
